import Mathlib

/-!
Verification of the perceptual-loss style-transfer model in
`src/models/plst.py` ("Perceptual Losses for Real-Time Style Transfer and
Super-Resolution").

The loss pipeline (`L_feat`, `gram_matrix`, `L_style`, `L_tv`, `Loss_plst`)
is embedded value-level: a 4-D tensor is a shape together with a rational
entry function, and every PyTorch mean/MSE reduction becomes an explicit
finite sum divided by the element count.  The two networks
(`StyleTransferNet`, `Vgg16`) are embedded at the shape level: each layer
contributes its PyTorch output-shape arithmetic
(`out = (in + 2*padding - kernel) / stride + 1` for convolutions, floor
division for pooling, multiplication for upsampling); instance
normalisation, ReLU and residual addition preserve shapes.
-/

/-- A 4-dimensional tensor `[N, C, H, W]` over the rationals: the shape and a
total entry function (entries outside the index ranges are irrelevant to every
definition below, which only ever reduces over in-range indices). -/
structure Tensor4 where
  n : ℕ
  c : ℕ
  h : ℕ
  w : ℕ
  data : ℕ → ℕ → ℕ → ℕ → ℚ

/-- Sum of `f 0 + f 1 + ... + f (k-1)`, by recursion so that concrete
instances reduce definitionally. -/
def sumIdx : ℕ → (ℕ → ℚ) → ℚ
  | 0, _ => 0
  | k + 1, f => sumIdx k f + f k

/-- Sum of `f` over the index box `[0,n) × [0,c) × [0,h) × [0,w)`. -/
def sum4 (n c h w : ℕ) (f : ℕ → ℕ → ℕ → ℕ → ℚ) : ℚ :=
  sumIdx n fun b => sumIdx c fun ch => sumIdx h fun i => sumIdx w fun j => f b ch i j

/-- `torch.nn.MSELoss(reduction='mean')` on two equally-shaped 4-D tensors:
the sum of squared element-wise differences divided by the element count. -/
def mseLoss (a b : Tensor4) : ℚ :=
  sum4 a.n a.c a.h a.w (fun bi ch i j => (a.data bi ch i j - b.data bi ch i j) ^ 2) /
    ((a.n * a.c * a.h * a.w : ℕ) : ℚ)

/-- `L_feat(feats, targets)` from `plst.py`: feature reconstruction loss,
mean squared error between the two feature maps. -/
def L_feat (feats targets : Tensor4) : ℚ :=
  mseLoss feats targets

/-- A batch of `c × c` Gram matrices (one per sample). -/
structure GramBatch where
  b : ℕ
  c : ℕ
  G : ℕ → ℕ → ℕ → ℚ

/-- `gram_matrix(input)` from `plst.py`: flatten the spatial dimensions
(`view(b, c, h*w)`, so flat pixel `p` is spatial index `(p / w, p % w)`),
batch-multiply the feature matrix with its own transpose, divide by `h*w`. -/
def gram_matrix (input : Tensor4) : GramBatch :=
  { b := input.n
    c := input.c
    G := fun bi i j =>
      sumIdx (input.h * input.w)
        (fun p => input.data bi i (p / input.w) (p % input.w) *
          input.data bi j (p / input.w) (p % input.w)) /
      ((input.h * input.w : ℕ) : ℚ) }

/-- Mean squared error between two equally-shaped Gram-matrix batches
(`MSELoss(reduction='mean')` applied to the two `[b, c, c]` tensors). -/
def mseGram (A B : GramBatch) : ℚ :=
  (sumIdx A.b fun bi => sumIdx A.c fun i => sumIdx A.c fun j =>
    (A.G bi i j - B.G bi i j) ^ 2) /
    ((A.b * A.c * A.c : ℕ) : ℚ)

/-- `L_style(feats, targets)` from `plst.py`: style reconstruction loss, mean
squared error between the Gram matrices of the two feature maps. -/
def L_style (feats targets : Tensor4) : ℚ :=
  mseGram (gram_matrix feats) (gram_matrix targets)

/-- `L_tv(preds)` from `plst.py`: total variation regularisation loss,
`mean |preds[:,:,:,:-1] - preds[:,:,:,1:]| + mean |preds[:,:,:-1,:] - preds[:,:,1:,:]|`.
The horizontal term ranges over columns `j < w - 1` and the vertical term over
rows `i < h - 1`; each mean divides by the element count of its sliced tensor. -/
def L_tv (preds : Tensor4) : ℚ :=
  sum4 preds.n preds.c preds.h (preds.w - 1)
      (fun b ch i j => |preds.data b ch i j - preds.data b ch i (j + 1)|) /
    ((preds.n * preds.c * preds.h * (preds.w - 1) : ℕ) : ℚ) +
  sum4 preds.n preds.c (preds.h - 1) preds.w
      (fun b ch i j => |preds.data b ch i j - preds.data b ch (i + 1) j|) /
    ((preds.n * preds.c * (preds.h - 1) * preds.w : ℕ) : ℚ)

/-- The four feature maps returned by `Vgg16.forward`, in increasing depth
order (`relu1_2`, `relu2_2`, `relu3_3`, `relu4_3`). -/
structure Feats4 where
  relu1_2 : Tensor4
  relu2_2 : Tensor4
  relu3_3 : Tensor4
  relu4_3 : Tensor4

/-- The state of a `Loss_plst` object: the extractor reference, the style
image, the three weights, and the four cached style feature maps. -/
structure Loss_plst where
  vgg : Tensor4 → Feats4
  style_img : Tensor4
  lambda_c : ℚ
  lambda_s : ℚ
  lambda_tv : ℚ
  style_relu1_2 : Tensor4
  style_relu2_2 : Tensor4
  style_relu3_3 : Tensor4
  style_relu4_3 : Tensor4

/-- `Loss_plst.__init__(vgg, style_img, lambda_c, lambda_s, lambda_tv)`:
stores the arguments and runs the extractor once on the style image, caching
its four feature maps.  The second component is the trace of extractor
invocations performed by the constructor (the body contains the single call
`self.vgg(self.style_img)`). -/
def Loss_plst.init (vgg : Tensor4 → Feats4) (style_img : Tensor4)
    (lambda_c lambda_s lambda_tv : ℚ) : Loss_plst × List Tensor4 :=
  let sf := vgg style_img
  ({ vgg := vgg
     style_img := style_img
     lambda_c := lambda_c
     lambda_s := lambda_s
     lambda_tv := lambda_tv
     style_relu1_2 := sf.relu1_2
     style_relu2_2 := sf.relu2_2
     style_relu3_3 := sf.relu3_3
     style_relu4_3 := sf.relu4_3 }, [style_img])

/-- `Loss_plst.extract_and_calculate_loss(self, x, y_hat)`: content loss from
the third extractor stage of `x` and `y_hat`, style loss summed over all four
stages against the cached style features, total variation loss on `y_hat`;
each scaled by its weight and returned as a separate scalar.  The second
component is the method's resulting object state (the body assigns to no
field of `self`) and the third is the trace of extractor invocations
(`self.vgg(x)` then `self.vgg(y_hat)`). -/
def Loss_plst.extract_and_calculate_loss (s : Loss_plst) (x y_hat : Tensor4) :
    (ℚ × ℚ × ℚ) × Loss_plst × List Tensor4 :=
  let content_target := (s.vgg x).relu3_3
  let cf := s.vgg y_hat
  let loss_c := L_feat cf.relu3_3 content_target
  let loss_s := L_style cf.relu1_2 s.style_relu1_2 + L_style cf.relu2_2 s.style_relu2_2 +
    L_style cf.relu3_3 s.style_relu3_3 + L_style cf.relu4_3 s.style_relu4_3
  let loss_tv := L_tv y_hat
  ((s.lambda_c * loss_c, s.lambda_s * loss_s, s.lambda_tv * loss_tv), s, [x, y_hat])

/-- A tensor shape `[N, C, H, W]`. -/
structure Shape4 where
  n : ℕ
  c : ℕ
  h : ℕ
  w : ℕ
deriving DecidableEq

/-- Output shape of `nn.Conv2d(·, out_channels, kernel_size, stride, padding)`
(PyTorch: `out = (in + 2*padding - kernel_size) / stride + 1`, floor
division); the padding mode (reflect or zero) does not affect the shape. -/
def conv2dShape (out_channels kernel_size stride padding : ℕ) (s : Shape4) : Shape4 :=
  { n := s.n
    c := out_channels
    h := (s.h + 2 * padding - kernel_size) / stride + 1
    w := (s.w + 2 * padding - kernel_size) / stride + 1 }

/-- Output shape of `nn.MaxPool2d(kernel_size=2, stride=2)`. -/
def maxPool2dShape (s : Shape4) : Shape4 :=
  { s with h := (s.h - 2) / 2 + 1, w := (s.w - 2) / 2 + 1 }

/-- Output shape of `nn.Upsample(scale_factor)`. -/
def upsampleShape (scale_factor : ℕ) (s : Shape4) : Shape4 :=
  { s with h := scale_factor * s.h, w := scale_factor * s.w }

/-- Shape semantics of `ResidualBlock.forward`: two `Conv2d(channels,
channels, kernel_size=3, stride=1, padding=1)` layers (instance norms, ReLU
and the skip addition preserve shapes). -/
def ResidualBlock.forwardShape (channels : ℕ) (x : Shape4) : Shape4 :=
  conv2dShape channels 3 1 1 (conv2dShape channels 3 1 1 x)

/-- Shape semantics of `UpsampleConvLayer.forward`: optional upsampling by
`upsample`, then `Conv2d(·, out_channels, kernel_size, stride,
padding=kernel_size//2)`. -/
def UpsampleConvLayer.forwardShape (out_channels kernel_size stride : ℕ)
    (upsample : Option ℕ) (x : Shape4) : Shape4 :=
  let y := match upsample with
    | some f => upsampleShape f x
    | none => x
  conv2dShape out_channels kernel_size stride (kernel_size / 2) y

/-- Shape semantics of `StyleTransferNet.forward`: `conv_1` (3→32, k9, s1,
p4), `conv_2` (32→64, k3, s2, p1), `conv_3` (64→128, k3, s2, p1), five
residual blocks at 128 channels, `up_1` (128→64, ×2), `up_2` (64→32, ×2),
`conv_f` (32→3, k9, s1, p4); the instance norms and ReLUs preserve shapes
(the unused `ref_pad` module does not appear in `forward`). -/
def StyleTransferNet.forwardShape (x : Shape4) : Shape4 :=
  let x1 := conv2dShape 32 9 1 4 x
  let x2 := conv2dShape 64 3 2 1 x1
  let x3 := conv2dShape 128 3 2 1 x2
  let x4 := ResidualBlock.forwardShape 128 (ResidualBlock.forwardShape 128
    (ResidualBlock.forwardShape 128 (ResidualBlock.forwardShape 128
      (ResidualBlock.forwardShape 128 x3))))
  let x5 := UpsampleConvLayer.forwardShape 64 3 1 (some 2) x4
  let x6 := UpsampleConvLayer.forwardShape 32 3 1 (some 2) x5
  conv2dShape 3 9 1 4 x6

/-- Shape semantics of `Vgg16.slice1` (torchvision `vgg16().features[0:4]`:
`Conv2d(3, 64, 3, padding=1)`, ReLU, `Conv2d(64, 64, 3, padding=1)`, ReLU). -/
def Vgg16.slice1Shape (s : Shape4) : Shape4 :=
  conv2dShape 64 3 1 1 (conv2dShape 64 3 1 1 s)

/-- Shape semantics of `Vgg16.slice2` (`features[4:9]`: `MaxPool2d(2, 2)`,
`Conv2d(64, 128, 3, padding=1)`, ReLU, `Conv2d(128, 128, 3, padding=1)`,
ReLU). -/
def Vgg16.slice2Shape (s : Shape4) : Shape4 :=
  conv2dShape 128 3 1 1 (conv2dShape 128 3 1 1 (maxPool2dShape s))

/-- Shape semantics of `Vgg16.slice3` (`features[9:16]`: `MaxPool2d(2, 2)`
followed by three `Conv2d(·, 256, 3, padding=1)` + ReLU pairs). -/
def Vgg16.slice3Shape (s : Shape4) : Shape4 :=
  conv2dShape 256 3 1 1 (conv2dShape 256 3 1 1 (conv2dShape 256 3 1 1 (maxPool2dShape s)))

/-- Shape semantics of `Vgg16.slice4` (`features[16:23]`: `MaxPool2d(2, 2)`
followed by three `Conv2d(·, 512, 3, padding=1)` + ReLU pairs). -/
def Vgg16.slice4Shape (s : Shape4) : Shape4 :=
  conv2dShape 512 3 1 1 (conv2dShape 512 3 1 1 (conv2dShape 512 3 1 1 (maxPool2dShape s)))

/-- Shape semantics of `Vgg16.forward`: the input runs through the four
slices in sequence and the intermediate results `relu1_2`, `relu2_2`,
`relu3_3`, `relu4_3` are returned as a 4-tuple in increasing depth order. -/
def Vgg16.forwardShapes (s : Shape4) : Shape4 × Shape4 × Shape4 × Shape4 :=
  let r1 := Vgg16.slice1Shape s
  let r2 := Vgg16.slice2Shape r1
  let r3 := Vgg16.slice3Shape r2
  let r4 := Vgg16.slice4Shape r3
  (r1, r2, r3, r4)

/-! ## Helper lemmas -/

theorem sumIdx_nonneg (k : ℕ) (f : ℕ → ℚ) (hf : ∀ i, i < k → 0 ≤ f i) :
    0 ≤ sumIdx k f := by
  induction k with
  | zero => simp [sumIdx]
  | succ m ih =>
    have h1 : 0 ≤ sumIdx m f := ih fun i hi => hf i (Nat.lt_succ_of_lt hi)
    have h2 : 0 ≤ f m := hf m (Nat.lt_succ_self m)
    simpa [sumIdx] using add_nonneg h1 h2

theorem sumIdx_eq_zero (k : ℕ) (f : ℕ → ℚ) (hf : ∀ i, i < k → f i = 0) :
    sumIdx k f = 0 := by
  induction k with
  | zero => simp [sumIdx]
  | succ m ih =>
    have h1 : sumIdx m f = 0 := ih fun i hi => hf i (Nat.lt_succ_of_lt hi)
    simp [sumIdx, h1, hf m (Nat.lt_succ_self m)]

theorem sumIdx_congr (k : ℕ) (f g : ℕ → ℚ) (hfg : ∀ i, i < k → f i = g i) :
    sumIdx k f = sumIdx k g := by
  induction k with
  | zero => simp [sumIdx]
  | succ m ih =>
    have h1 := ih fun i hi => hfg i (Nat.lt_succ_of_lt hi)
    simp [sumIdx, h1, hfg m (Nat.lt_succ_self m)]

theorem mseLoss_self (t : Tensor4) : mseLoss t t = 0 := by
  have h : sum4 t.n t.c t.h t.w
      (fun bi ch i j => (t.data bi ch i j - t.data bi ch i j) ^ 2) = 0 := by
    unfold sum4
    refine sumIdx_eq_zero _ _ fun b _ => ?_
    refine sumIdx_eq_zero _ _ fun ch _ => ?_
    refine sumIdx_eq_zero _ _ fun i _ => ?_
    refine sumIdx_eq_zero _ _ fun j _ => ?_
    simp
  unfold mseLoss
  rw [h, zero_div]

theorem mseGram_self (A : GramBatch) : mseGram A A = 0 := by
  have h : (sumIdx A.b fun bi => sumIdx A.c fun i => sumIdx A.c fun j =>
      (A.G bi i j - A.G bi i j) ^ 2) = 0 := by
    refine sumIdx_eq_zero _ _ fun bi _ => ?_
    refine sumIdx_eq_zero _ _ fun i _ => ?_
    refine sumIdx_eq_zero _ _ fun j _ => ?_
    simp
  unfold mseGram
  rw [h, zero_div]

theorem L_style_self (t : Tensor4) : L_style t t = 0 :=
  mseGram_self (gram_matrix t)

/-! ## Claim theorems -/

/-- C7: for every tensor `x`, `L_feat(x, x) = 0` and `L_style(x, x) = 0`:
comparing a tensor with itself yields zero feature-reconstruction and
style-reconstruction loss. -/
theorem loss_self_eq_zero (x : Tensor4) : L_feat x x = 0 ∧ L_style x x = 0 :=
  ⟨mseLoss_self x, L_style_self x⟩

/-- C6: the Gram matrix of any feature map is symmetric — for every sample
index `bi` and all channel indices `i`, `j`, `(gram_matrix x).G bi i j =
(gram_matrix x).G bi j i` — exactly (hence within any floating-point
tolerance), where `gram_matrix` flattens the spatial dimensions, multiplies
the channel-feature matrix by its own transpose, and divides by `h * w`. -/
theorem gram_matrix_symm (x : Tensor4) (bi i j : ℕ) :
    (gram_matrix x).G bi i j = (gram_matrix x).G bi j i := by
  unfold gram_matrix
  have h := sumIdx_congr (x.h * x.w)
    (fun p => x.data bi i (p / x.w) (p % x.w) * x.data bi j (p / x.w) (p % x.w))
    (fun p => x.data bi j (p / x.w) (p % x.w) * x.data bi i (p / x.w) (p % x.w))
    (fun p _ => mul_comm _ _)
  simp only [h]

/-- C1: for every session state and every call
`extract_and_calculate_loss(x, y_hat)`, the returned triple is exactly
`(lambda_c * L_feat(stage-3 of y_hat, stage-3 of x), lambda_s * (sum over the
four stages of L_style(stage-i of y_hat, cached style stage-i)),
lambda_tv * L_tv(y_hat))`, as three separate scalars that are not pre-summed;
in particular the content loss uses only the third extractor stage of both
images. -/
theorem extract_and_calculate_loss_components (s : Loss_plst) (x y_hat : Tensor4) :
    (s.extract_and_calculate_loss x y_hat).1 =
      (s.lambda_c * L_feat (s.vgg y_hat).relu3_3 (s.vgg x).relu3_3,
       s.lambda_s * (L_style (s.vgg y_hat).relu1_2 s.style_relu1_2 +
         L_style (s.vgg y_hat).relu2_2 s.style_relu2_2 +
         L_style (s.vgg y_hat).relu3_3 s.style_relu3_3 +
         L_style (s.vgg y_hat).relu4_3 s.style_relu4_3),
       s.lambda_tv * L_tv y_hat) :=
  rfl

/-- C8: the constructor invokes the extractor exactly once, on the style
image, and caches the four resulting feature maps; every call to
`extract_and_calculate_loss` returns the session state unchanged (no field
is mutated) and invokes the extractor only on its two arguments `x` and
`y_hat` (never recomputing the cached style features). -/
theorem session_state_immutable (vgg : Tensor4 → Feats4) (style : Tensor4)
    (lc ls ltv : ℚ) (s : Loss_plst) (x y_hat : Tensor4) :
    (Loss_plst.init vgg style lc ls ltv).2 = [style] ∧
    (Loss_plst.init vgg style lc ls ltv).1.style_relu1_2 = (vgg style).relu1_2 ∧
    (Loss_plst.init vgg style lc ls ltv).1.style_relu2_2 = (vgg style).relu2_2 ∧
    (Loss_plst.init vgg style lc ls ltv).1.style_relu3_3 = (vgg style).relu3_3 ∧
    (Loss_plst.init vgg style lc ls ltv).1.style_relu4_3 = (vgg style).relu4_3 ∧
    (s.extract_and_calculate_loss x y_hat).2.1 = s ∧
    (s.extract_and_calculate_loss x y_hat).2.2 = [x, y_hat] :=
  ⟨rfl, rfl, rfl, rfl, rfl, rfl, rfl⟩

/-- C10: the content-loss and total-variation-loss components are independent
of the style image: two sessions sharing the extractor and the three weights
(but possibly holding different style images and caches) return identical
first and third components on every call with the same `(x, y_hat)`. -/
theorem content_tv_independent_of_style (s1 s2 : Loss_plst) (x y_hat : Tensor4)
    (hvgg : s1.vgg = s2.vgg) (hc : s1.lambda_c = s2.lambda_c)
    (_hs : s1.lambda_s = s2.lambda_s) (htv : s1.lambda_tv = s2.lambda_tv) :
    (s1.extract_and_calculate_loss x y_hat).1.1 =
      (s2.extract_and_calculate_loss x y_hat).1.1 ∧
    (s1.extract_and_calculate_loss x y_hat).1.2.2 =
      (s2.extract_and_calculate_loss x y_hat).1.2.2 := by
  constructor
  · show s1.lambda_c * L_feat (s1.vgg y_hat).relu3_3 (s1.vgg x).relu3_3 =
      s2.lambda_c * L_feat (s2.vgg y_hat).relu3_3 (s2.vgg x).relu3_3
    rw [hvgg, hc]
  · show s1.lambda_tv * L_tv y_hat = s2.lambda_tv * L_tv y_hat
    rw [htv]

/-- A concrete extractor used to instantiate hypotheses of the claim
theorems: it returns the input tensor as all four stages. -/
def wVgg : Tensor4 → Feats4 := fun t => ⟨t, t, t, t⟩

/-- A concrete constant tensor of the given shape. -/
def wT (n c h w : ℕ) (q : ℚ) : Tensor4 := ⟨n, c, h, w, fun _ _ _ _ => q⟩

/-- Witness for C10 at concrete inputs: two sessions built from the same
extractor and weights but different style images give the same content-loss
and tv-loss components. -/
theorem content_tv_independent_of_style_witness :
    (((Loss_plst.init wVgg (wT 1 3 64 64 0) 1 1 1).1.extract_and_calculate_loss
        (wT 2 3 64 64 0) (wT 2 3 64 64 1)).1.1 =
      ((Loss_plst.init wVgg (wT 1 3 64 64 5) 1 1 1).1.extract_and_calculate_loss
        (wT 2 3 64 64 0) (wT 2 3 64 64 1)).1.1) ∧
    (((Loss_plst.init wVgg (wT 1 3 64 64 0) 1 1 1).1.extract_and_calculate_loss
        (wT 2 3 64 64 0) (wT 2 3 64 64 1)).1.2.2 =
      ((Loss_plst.init wVgg (wT 1 3 64 64 5) 1 1 1).1.extract_and_calculate_loss
        (wT 2 3 64 64 0) (wT 2 3 64 64 1)).1.2.2) :=
  content_tv_independent_of_style _ _ _ _ rfl rfl rfl rfl

theorem sum4_nonneg (n c h w : ℕ) (f : ℕ → ℕ → ℕ → ℕ → ℚ)
    (hf : ∀ b ch i j, b < n → ch < c → i < h → j < w → 0 ≤ f b ch i j) :
    0 ≤ sum4 n c h w f := by
  unfold sum4
  refine sumIdx_nonneg _ _ fun b hb => ?_
  refine sumIdx_nonneg _ _ fun ch hch => ?_
  refine sumIdx_nonneg _ _ fun i hi => ?_
  exact sumIdx_nonneg _ _ fun j hj => hf b ch i j hb hch hi hj

theorem sum4_eq_zero (n c h w : ℕ) (f : ℕ → ℕ → ℕ → ℕ → ℚ)
    (hf : ∀ b ch i j, b < n → ch < c → i < h → j < w → f b ch i j = 0) :
    sum4 n c h w f = 0 := by
  unfold sum4
  refine sumIdx_eq_zero _ _ fun b hb => ?_
  refine sumIdx_eq_zero _ _ fun ch hch => ?_
  refine sumIdx_eq_zero _ _ fun i hi => ?_
  exact sumIdx_eq_zero _ _ fun j hj => hf b ch i j hb hch hi hj

/-- C4: for every input tensor, `L_tv` is non-negative; it is exactly `0` on
a spatially constant image; and it equals the mean absolute difference of
horizontally adjacent pixels plus the mean absolute difference of vertically
adjacent pixels, the column index ranging over `j < w - 1` and the row index
over `i < h - 1` (the last column and the last row are excluded — no
wraparound, no padding). -/
theorem tv_loss_nonneg_zero_on_const (t : Tensor4) :
    0 ≤ L_tv t ∧
    ((∀ b ch i j i2 j2, i < t.h → j < t.w → i2 < t.h → j2 < t.w →
        t.data b ch i j = t.data b ch i2 j2) → L_tv t = 0) ∧
    L_tv t =
      sum4 t.n t.c t.h (t.w - 1)
          (fun b ch i j => |t.data b ch i j - t.data b ch i (j + 1)|) /
        ((t.n * t.c * t.h * (t.w - 1) : ℕ) : ℚ) +
      sum4 t.n t.c (t.h - 1) t.w
          (fun b ch i j => |t.data b ch i j - t.data b ch (i + 1) j|) /
        ((t.n * t.c * (t.h - 1) * t.w : ℕ) : ℚ) := by
  refine ⟨?_, ?_, rfl⟩
  · have h1 : 0 ≤ sum4 t.n t.c t.h (t.w - 1)
        (fun b ch i j => |t.data b ch i j - t.data b ch i (j + 1)|) :=
      sum4_nonneg _ _ _ _ _ fun b ch i j _ _ _ _ => abs_nonneg _
    have h2 : 0 ≤ sum4 t.n t.c (t.h - 1) t.w
        (fun b ch i j => |t.data b ch i j - t.data b ch (i + 1) j|) :=
      sum4_nonneg _ _ _ _ _ fun b ch i j _ _ _ _ => abs_nonneg _
    exact add_nonneg (div_nonneg h1 (Nat.cast_nonneg _)) (div_nonneg h2 (Nat.cast_nonneg _))
  · intro hconst
    have h1 : sum4 t.n t.c t.h (t.w - 1)
        (fun b ch i j => |t.data b ch i j - t.data b ch i (j + 1)|) = 0 := by
      refine sum4_eq_zero _ _ _ _ _ fun b ch i j _ _ hi hj => ?_
      have he : t.data b ch i j = t.data b ch i (j + 1) :=
        hconst b ch i j i (j + 1) hi (by omega) hi (by omega)
      simp [he]
    have h2 : sum4 t.n t.c (t.h - 1) t.w
        (fun b ch i j => |t.data b ch i j - t.data b ch (i + 1) j|) = 0 := by
      refine sum4_eq_zero _ _ _ _ _ fun b ch i j _ _ hi hj => ?_
      have he : t.data b ch i j = t.data b ch (i + 1) j :=
        hconst b ch i j (i + 1) j (by omega) hj (by omega) hj
      simp [he]
    unfold L_tv
    rw [h1, h2, zero_div, zero_div, add_zero]

/-- Witness for C4 at a concrete input: a constant `1 × 1 × 2 × 2` image has
non-negative total variation loss, and that loss is exactly `0`. -/
theorem tv_loss_nonneg_zero_on_const_witness :
    0 ≤ L_tv (wT 1 1 2 2 5) ∧ L_tv (wT 1 1 2 2 5) = 0 :=
  ⟨(tv_loss_nonneg_zero_on_const (wT 1 1 2 2 5)).1,
   (tv_loss_nonneg_zero_on_const (wT 1 1 2 2 5)).2.1
     (fun _ _ _ _ _ _ _ _ _ _ => rfl)⟩

/-- C3: for any extractor, any content batch of shape `(2, 3, 64, 64)` and
any style image of shape `(1, 3, 64, 64)`, constructing the loss session
(with the default weights `1`) and calling `extract_and_calculate_loss`
with the generated image equal to the content image returns content loss
exactly `0`, and a style loss equal to the sum over the four stages of the
style loss between the content image's own features (hence Gram matrices)
and the cached style-image features. -/
theorem compute_losses_on_identical_images (vgg : Tensor4 → Feats4)
    (content style : Tensor4)
    (_hn : content.n = 2) (_hc : content.c = 3) (_hh : content.h = 64) (_hw : content.w = 64)
    (_hm : style.n = 1) (_hsc : style.c = 3) (_hsh : style.h = 64) (_hsw : style.w = 64) :
    ((Loss_plst.init vgg style 1 1 1).1.extract_and_calculate_loss
        content content).1.1 = 0 ∧
    ((Loss_plst.init vgg style 1 1 1).1.extract_and_calculate_loss
        content content).1.2.1 =
      L_style (vgg content).relu1_2 (vgg style).relu1_2 +
      L_style (vgg content).relu2_2 (vgg style).relu2_2 +
      L_style (vgg content).relu3_3 (vgg style).relu3_3 +
      L_style (vgg content).relu4_3 (vgg style).relu4_3 := by
  constructor
  · show (1 : ℚ) * L_feat (vgg content).relu3_3 (vgg content).relu3_3 = 0
    rw [one_mul]
    exact mseLoss_self _
  · show (1 : ℚ) * (L_style (vgg content).relu1_2 (vgg style).relu1_2 +
      L_style (vgg content).relu2_2 (vgg style).relu2_2 +
      L_style (vgg content).relu3_3 (vgg style).relu3_3 +
      L_style (vgg content).relu4_3 (vgg style).relu4_3) = _
    rw [one_mul]

/-- Witness for C3 at concrete inputs of the stated shapes. -/
theorem compute_losses_on_identical_images_witness :
    ((Loss_plst.init wVgg (wT 1 3 64 64 7) 1 1 1).1.extract_and_calculate_loss
        (wT 2 3 64 64 2) (wT 2 3 64 64 2)).1.1 = 0 ∧
    ((Loss_plst.init wVgg (wT 1 3 64 64 7) 1 1 1).1.extract_and_calculate_loss
        (wT 2 3 64 64 2) (wT 2 3 64 64 2)).1.2.1 =
      L_style (wVgg (wT 2 3 64 64 2)).relu1_2 (wVgg (wT 1 3 64 64 7)).relu1_2 +
      L_style (wVgg (wT 2 3 64 64 2)).relu2_2 (wVgg (wT 1 3 64 64 7)).relu2_2 +
      L_style (wVgg (wT 2 3 64 64 2)).relu3_3 (wVgg (wT 1 3 64 64 7)).relu3_3 +
      L_style (wVgg (wT 2 3 64 64 2)).relu4_3 (wVgg (wT 1 3 64 64 7)).relu4_3 :=
  compute_losses_on_identical_images wVgg (wT 2 3 64 64 2) (wT 1 3 64 64 7)
    rfl rfl rfl rfl rfl rfl rfl rfl

/-- C5: for every valid 3-channel input batch (spatial dimensions at least
`8`, so that all four stages are non-degenerate), `Vgg16.forward` returns
exactly four feature maps in increasing depth order, with shapes
`(n, 64, h, w)`, `(n, 128, h/2, w/2)`, `(n, 256, h/4, w/4)`,
`(n, 512, h/8, w/8)`; their spatial resolutions are strictly decreasing and
their channel counts are non-decreasing as the stage index increases. -/
theorem vgg16_four_stage_shapes (n h w : ℕ) (hh : 8 ≤ h) (hw : 8 ≤ w) :
    Vgg16.forwardShapes ⟨n, 3, h, w⟩ =
      (⟨n, 64, h, w⟩, ⟨n, 128, h / 2, w / 2⟩, ⟨n, 256, h / 4, w / 4⟩,
        ⟨n, 512, h / 8, w / 8⟩) ∧
    (Vgg16.forwardShapes ⟨n, 3, h, w⟩).1.c ≤ (Vgg16.forwardShapes ⟨n, 3, h, w⟩).2.1.c ∧
    (Vgg16.forwardShapes ⟨n, 3, h, w⟩).2.1.c ≤ (Vgg16.forwardShapes ⟨n, 3, h, w⟩).2.2.1.c ∧
    (Vgg16.forwardShapes ⟨n, 3, h, w⟩).2.2.1.c ≤ (Vgg16.forwardShapes ⟨n, 3, h, w⟩).2.2.2.c ∧
    (Vgg16.forwardShapes ⟨n, 3, h, w⟩).2.1.h < (Vgg16.forwardShapes ⟨n, 3, h, w⟩).1.h ∧
    (Vgg16.forwardShapes ⟨n, 3, h, w⟩).2.2.1.h < (Vgg16.forwardShapes ⟨n, 3, h, w⟩).2.1.h ∧
    (Vgg16.forwardShapes ⟨n, 3, h, w⟩).2.2.2.h < (Vgg16.forwardShapes ⟨n, 3, h, w⟩).2.2.1.h ∧
    (Vgg16.forwardShapes ⟨n, 3, h, w⟩).2.1.w < (Vgg16.forwardShapes ⟨n, 3, h, w⟩).1.w ∧
    (Vgg16.forwardShapes ⟨n, 3, h, w⟩).2.2.1.w < (Vgg16.forwardShapes ⟨n, 3, h, w⟩).2.1.w ∧
    (Vgg16.forwardShapes ⟨n, 3, h, w⟩).2.2.2.w < (Vgg16.forwardShapes ⟨n, 3, h, w⟩).2.2.1.w := by
  simp only [Vgg16.forwardShapes, Vgg16.slice1Shape, Vgg16.slice2Shape, Vgg16.slice3Shape,
    Vgg16.slice4Shape, conv2dShape, maxPool2dShape, Prod.mk.injEq, Shape4.mk.injEq,
    true_and, and_true]
  omega

/-- Witness for C5 at input shape `(1, 3, 64, 64)`. -/
theorem vgg16_four_stage_shapes_witness :
    Vgg16.forwardShapes ⟨1, 3, 64, 64⟩ =
      (⟨1, 64, 64, 64⟩, ⟨1, 128, 32, 32⟩, ⟨1, 256, 16, 16⟩, ⟨1, 512, 8, 8⟩) ∧
    (Vgg16.forwardShapes ⟨1, 3, 64, 64⟩).1.c ≤ (Vgg16.forwardShapes ⟨1, 3, 64, 64⟩).2.1.c ∧
    (Vgg16.forwardShapes ⟨1, 3, 64, 64⟩).2.1.c ≤ (Vgg16.forwardShapes ⟨1, 3, 64, 64⟩).2.2.1.c ∧
    (Vgg16.forwardShapes ⟨1, 3, 64, 64⟩).2.2.1.c ≤ (Vgg16.forwardShapes ⟨1, 3, 64, 64⟩).2.2.2.c ∧
    (Vgg16.forwardShapes ⟨1, 3, 64, 64⟩).2.1.h < (Vgg16.forwardShapes ⟨1, 3, 64, 64⟩).1.h ∧
    (Vgg16.forwardShapes ⟨1, 3, 64, 64⟩).2.2.1.h < (Vgg16.forwardShapes ⟨1, 3, 64, 64⟩).2.1.h ∧
    (Vgg16.forwardShapes ⟨1, 3, 64, 64⟩).2.2.2.h < (Vgg16.forwardShapes ⟨1, 3, 64, 64⟩).2.2.1.h ∧
    (Vgg16.forwardShapes ⟨1, 3, 64, 64⟩).2.1.w < (Vgg16.forwardShapes ⟨1, 3, 64, 64⟩).1.w ∧
    (Vgg16.forwardShapes ⟨1, 3, 64, 64⟩).2.2.1.w < (Vgg16.forwardShapes ⟨1, 3, 64, 64⟩).2.1.w ∧
    (Vgg16.forwardShapes ⟨1, 3, 64, 64⟩).2.2.2.w < (Vgg16.forwardShapes ⟨1, 3, 64, 64⟩).2.2.1.w :=
  vgg16_four_stage_shapes 1 64 64 (by decide) (by decide)

/-- C9: for every input shape `(n, 3, h, w)` with positive spatial
dimensions, `StyleTransferNet.forward` produces output shape
`(n, 3, 4 * ceil(h / 4), 4 * ceil(w / 4))` (where `ceil(d / 4) = (d + 3) / 4`
in natural-number division); each stride-2 convolution (kernel 3, padding 1)
maps a dimension `d` to `ceil(d / 2) = (d + 1) / 2`; and the output shape
equals the input shape exactly when `h` and `w` are both divisible by `4`. -/
theorem style_transfer_output_shape (n h w : ℕ) (hh : 1 ≤ h) (hw : 1 ≤ w) :
    StyleTransferNet.forwardShape ⟨n, 3, h, w⟩ =
      ⟨n, 3, 4 * ((h + 3) / 4), 4 * ((w + 3) / 4)⟩ ∧
    (conv2dShape 64 3 2 1 ⟨n, 32, h, w⟩).h = (h + 1) / 2 ∧
    (conv2dShape 128 3 2 1 ⟨n, 64, h, w⟩).w = (w + 1) / 2 ∧
    (StyleTransferNet.forwardShape ⟨n, 3, h, w⟩ = ⟨n, 3, h, w⟩ ↔
      h % 4 = 0 ∧ w % 4 = 0) := by
  simp only [StyleTransferNet.forwardShape, ResidualBlock.forwardShape,
    UpsampleConvLayer.forwardShape, upsampleShape, conv2dShape, Shape4.mk.injEq,
    true_and, and_true]
  omega

/-- Witness for C9 at input shape `(1, 3, 65, 65)`. -/
theorem style_transfer_output_shape_witness :
    StyleTransferNet.forwardShape ⟨1, 3, 65, 65⟩ =
      ⟨1, 3, 4 * ((65 + 3) / 4), 4 * ((65 + 3) / 4)⟩ ∧
    (conv2dShape 64 3 2 1 ⟨1, 32, 65, 65⟩).h = (65 + 1) / 2 ∧
    (conv2dShape 128 3 2 1 ⟨1, 64, 65, 65⟩).w = (65 + 1) / 2 ∧
    (StyleTransferNet.forwardShape ⟨1, 3, 65, 65⟩ = ⟨1, 3, 65, 65⟩ ↔
      65 % 4 = 0 ∧ 65 % 4 = 0) :=
  style_transfer_output_shape 1 65 65 (by decide) (by decide)

/-- Counterexample to C2 as stated: at the concrete valid input shape
`(1, 3, 65, 65)` (3 channels, spatial size 65 not divisible by 4),
`StyleTransferNet.forward` does not preserve the shape — its output shape is
`(1, 3, 68, 68)`. -/
theorem shape_preservation_counterexample :
    StyleTransferNet.forwardShape ⟨1, 3, 65, 65⟩ ≠ ⟨1, 3, 65, 65⟩ := by decide

/-- C2 (amended): for every valid image batch whose spatial dimensions are
positive multiples of 4, the transformation network output has exactly the
same shape as the input (channel count 3 and spatial dimensions
preserved). -/
theorem shape_preserved_on_multiples_of_4 (n h w : ℕ)
    (hh : 1 ≤ h) (hw : 1 ≤ w) (h4 : h % 4 = 0) (w4 : w % 4 = 0) :
    StyleTransferNet.forwardShape ⟨n, 3, h, w⟩ = ⟨n, 3, h, w⟩ := by
  simp only [StyleTransferNet.forwardShape, ResidualBlock.forwardShape,
    UpsampleConvLayer.forwardShape, upsampleShape, conv2dShape, Shape4.mk.injEq,
    true_and, and_true]
  omega

/-- Witness for the amended C2 at input shape `(1, 3, 256, 256)`. -/
theorem shape_preserved_on_multiples_of_4_witness :
    StyleTransferNet.forwardShape ⟨1, 3, 256, 256⟩ = ⟨1, 3, 256, 256⟩ :=
  shape_preserved_on_multiples_of_4 1 256 256 (by decide) (by decide) (by decide) (by decide)
